import Mathlib

/-!
Shallow embedding of the session-orchestration core of the `mantention_agent`
repository (files `src/agent.py` and `src/improved_agent.py`), together with
proofs of the spec claims about it.

Modelling conventions:
* External services (LLM completions, the SQLite database, the OpenAI file /
  assistant endpoints) are oracles collected in an `Env` record.  Each oracle
  receives exactly the dynamic data the source passes to the corresponding
  call site; the constant prompt prefixes from `prompts.py` are absorbed into
  the oracle boundary.  Fallible calls return `Except String _` where the
  error value models a raised Python exception.
* A pandas `DataFrame` is modelled as its list of rows (`Table`); `df.empty`
  is `rows = []`.
* Mutable object state (`history`, `context`, `artefacts`, the cache and the
  file counters) is threaded explicitly through `AgentState`.  A step that
  raises keeps the mutations made so far, exactly as in Python.
* Wall-clock metrics (`total_time`, `sql_time`, `image_time`) are not
  representable in a pure embedding and are omitted from `TurnMetrics`;
  the discrete fields (`flow`, `reason`, `sql_attempts`, `cached`, `error`)
  are kept.
-/

namespace MantentionAgent

/-- One row of a result set (cells rendered as strings). -/
abbrev Row := List String

/-- A pandas `DataFrame`, modelled as its rows.  `df.empty` is `t = []`. -/
abbrev Table := List Row

/-- `structuredOutputs.messageClassification`: two independent booleans. -/
structure messageClassification where
  is_on_topic : Bool
  is_context_sufficient : Bool
deriving DecidableEq

/-- `structuredOutputs.actionsRequired`: two independent booleans. -/
structure actionsRequired where
  is_new_sql_query_needed : Bool
  is_new_image_needed : Bool
deriving DecidableEq

/-- `config.MAX_SQL_RETRIES`. -/
def MAX_SQL_RETRIES : Nat := 3

/-- `config.HEAD_ROWS`. -/
def HEAD_ROWS : Nat := 5

/-- `FileManager.save_dataframe` path for counter value `n`: `data_{n}.csv`. -/
def dataFileName (n : Nat) : String := "data_" ++ toString n ++ ".csv"

/-- `FileManager.save_image_bytes` path for counter value `n`: `image_{n}.png`. -/
def imageFileName (n : Nat) : String := "image_" ++ toString n ++ ".png"

/-- `FileManager.save_code` path for counter value `n`: `code_{n}.py`. -/
def codeFileName (n : Nat) : String := "code_" ++ toString n ++ ".py"

/-! ## Response cache (`CacheManager`, improved_agent.py lines 136-161)

The Python `dict` is modelled as an association list with unique keys kept in
insertion order; `access_order` is the recency list (least recently used at
the head).  Python raises `ValueError` from `list.remove` on a missing
element and `IndexError` from `list.pop(0)` on an empty list; those raises
are modelled by `Except` errors. -/

/-- `d[k]` lookup in a Python dict modelled as an association list. -/
def lookupA : List (String × String) → String → Option String
  | [], _ => none
  | (k', v) :: t, k => if k' = k then some v else lookupA t k

/-- `d[k] = v` on a Python dict: update in place if present, append if new. -/
def insertA : List (String × String) → String → String → List (String × String)
  | [], k, v => [(k, v)]
  | (k', v') :: t, k, v =>
      if k' = k then (k', v) :: t else (k', v') :: insertA t k v

/-- `del d[k]` on a Python dict: drop the entry with key `k`. -/
def eraseA : List (String × String) → String → List (String × String)
  | [], _ => []
  | (k', v') :: t, k => if k' = k then t else (k', v') :: eraseA t k

/-- Python `list.remove(x)`: drop the first occurrence of `x`, or raise
(`none`) when `x` is absent. -/
def pyRemove (l : List String) (k : String) : Option (List String) :=
  if k ∈ l then some (l.erase k) else none

/-- `CacheManager`: bounded LRU cache from key strings to the stored reply.
The source stores a dict `{"response": ..., "metrics": ...}`; only the
`"response"` component is ever read back, so the value is the reply string. -/
structure CacheManager where
  cache : List (String × String)
  max_size : Nat
  access_order : List String
deriving DecidableEq

/-- `CacheManager.__init__` with `max_size` (default 100). -/
def CacheManager.empty (max_size : Nat) : CacheManager :=
  { cache := [], max_size := max_size, access_order := [] }

/-- `CacheManager.get`: on a present key, move it to the most-recently-used
end of `access_order` and return its value; on a missing key return `none`.
The `Except` layer models the (invariant-breaking) `ValueError` that
`access_order.remove` would raise. -/
def CacheManager.get (c : CacheManager) (k : String) :
    Except String (Option String × CacheManager) :=
  match lookupA c.cache k with
  | some v =>
      match pyRemove c.access_order k with
      | none => .error "ValueError: list.remove(x): x not in list"
      | some ao => .ok (some v, { c with access_order := ao ++ [k] })
  | none => .ok (none, c)

/-- `CacheManager.set`: update-and-promote on a present key; otherwise, at
capacity, evict the head of `access_order` (the least recently used entry)
before inserting; then store the value and append the key as most recently
used. -/
def CacheManager.set (c : CacheManager) (k : String) (v : String) :
    Except String CacheManager :=
  if (lookupA c.cache k).isSome then
    match pyRemove c.access_order k with
    | none => .error "ValueError: list.remove(x): x not in list"
    | some ao =>
        .ok { c with cache := insertA c.cache k v, access_order := ao ++ [k] }
  else if c.max_size ≤ c.cache.length then
    match c.access_order with
    | [] => .error "IndexError: pop from empty list"
    | oldest :: rest =>
        .ok { c with
              cache := insertA (eraseA c.cache oldest) k v,
              access_order := rest ++ [k] }
  else
    .ok { c with cache := insertA c.cache k v, access_order := c.access_order ++ [k] }

/-- Fold `CacheManager.set` over a list of key/value pairs. -/
def CacheManager.setAll (c : CacheManager) : List (String × String) → Except String CacheManager
  | [] => .ok c
  | (k, v) :: t =>
      match c.set k v with
      | .error e => .error e
      | .ok c' => CacheManager.setAll c' t

/-! ## Artefacts and the latest-wins merge

`Artefacts` is the dataclass from both agent files.  `_record_artefacts`
(`agent.py` 330-339) and `_record_artefacts_async` (`improved_agent.py`
542-549) do `setattr(self.artefacts, k, v)` for every key of the `new_items`
dict; the branches also pass the extra keys `"image"` and `"code"`, which
`setattr` adds as dynamic attributes never read elsewhere — they are kept as
extra fields here.  A patch field of `none` means "key absent from the dict".
`ProcessingMetrics`/`session_id` are carried in `AgentState` instead. -/

structure Artefacts where
  sql_query : Option String := none
  data : Option Table := none
  data_file : Option String := none
  image_file : Option String := none
  code_file : Option String := none
  answer : Option String := none
  image : Option String := none
  code : Option String := none
deriving DecidableEq

/-- The `new_items` dict passed to `_record_artefacts`: `some v` means the
key is present with value `v`. -/
structure ArtPatch where
  sql_query : Option String := none
  data : Option Table := none
  data_file : Option String := none
  image_file : Option String := none
  code_file : Option String := none
  answer : Option String := none
  image : Option String := none
  code : Option String := none
deriving DecidableEq

/-- The `setattr` loop of `_record_artefacts`: every key present in the
patch overwrites that field, every absent key leaves the field untouched. -/
def mergeArtefacts (a : Artefacts) (p : ArtPatch) : Artefacts where
  sql_query := match p.sql_query with | some v => some v | none => a.sql_query
  data := match p.data with | some v => some v | none => a.data
  data_file := match p.data_file with | some v => some v | none => a.data_file
  image_file := match p.image_file with | some v => some v | none => a.image_file
  code_file := match p.code_file with | some v => some v | none => a.code_file
  answer := match p.answer with | some v => some v | none => a.answer
  image := match p.image with | some v => some v | none => a.image
  code := match p.code with | some v => some v | none => a.code

/-- The `", ".join(k for k in artefact_keys if k != "answer") or "none"`
string of `_summarise_interaction`, with keys in the dict insertion order
used by the three branches. -/
def patchKeysString (p : ArtPatch) : String :=
  let keys :=
    (if p.sql_query.isSome then ["sql_query"] else []) ++
    (if p.data.isSome then ["data"] else []) ++
    (if p.data_file.isSome then ["data_file"] else []) ++
    (if p.image_file.isSome then ["image_file"] else []) ++
    (if p.code_file.isSome then ["code_file"] else []) ++
    (if p.image.isSome then ["image"] else []) ++
    (if p.code.isSome then ["code"] else [])
  if keys = [] then "none" else String.intercalate ", " keys

/-! ## Environment of external services -/

/-- Abstraction of `DataFrame.to_string(index=False)`, used only to build the
data sample handed to the image-instruction oracle. -/
def tableString (t : Table) : String :=
  String.intercalate "\n" (t.map (String.intercalate " "))

/-- Per-turn metrics dict returned by `ImprovedAgentChat.execute`
(wall-clock times omitted, see the module comment). -/
inductive TurnMetrics where
  /-- `{"cached": True, "time": ...}` -/
  | cached : TurnMetrics
  /-- `{"flow": "bad", "reason": reason, ...}` -/
  | bad (reason : String) : TurnMetrics
  /-- `{"flow": "good", "sql_attempts": n, ...}` -/
  | good (sql_attempts : Nat) : TurnMetrics
  /-- `{"error": str(e), ...}` from the top-level handler -/
  | error (msg : String) : TurnMetrics
deriving DecidableEq

/-- Oracles for the external model, database and OpenAI file/assistant
services.  Each fallible oracle returns `Except String _`; an `.error`
models a Python exception escaping that call.  The two LLM calls inside a
SQL round and the database read are additionally indexed by the attempt
number so that a stateful stub (one answering differently on every attempt)
is representable. -/
structure Env where
  /-- `_translate(text, src=, tgt=)` -/
  translate : String → String → String → Except String String
  /-- `_to_request(user_en)`, also reading `self.context` -/
  toRequest : String → String → Except String String
  /-- `_classify(request)` -/
  classify : String → Except String messageClassification
  /-- `_get_actions(request)` -/
  getActions : String → Except String actionsRequired
  /-- `_bad_flow(request, reason_key)` -/
  badFlow : String → String → Except String String
  /-- `_create_final_answer(request, df, prev_answer)` -/
  finalAnswer : String → Table → Option String → Except String String
  /-- `_summarise_interaction(user_msg, assistant_msg, artefact-keys string)` -/
  summarize : String → String → String → Except String String
  /-- `_update_context`: previous context and new summary to new context -/
  updateContext : String → String → Except String String
  /-- simple-question LLM call of a SQL round: attempt number, request -/
  simpleQuestion : Nat → String → String
  /-- SQL-drafting LLM call of a SQL round: attempt number, content -/
  sqlDraft : Nat → String → String
  /-- `pd.read_sql_query(sql, conn)`: attempt number, sql statement -/
  runSql : Nat → String → Except String Table
  /-- `_upload_file_openai(csv_path)` -/
  uploadFile : String → Except String String
  /-- `_request_to_image_instr(request, sample)` -/
  imageInstr : String → String → Except String String
  /-- `_create_image(instructions, file_id)` through `_wait_for_run` and the
  image download: yields the raw image bytes and the raw code message text -/
  createImage : String → String → Except String (String × String)
  /-- `_filter_code(raw_text)` -/
  filterCode : String → Except String String

/-! ## SQL retrieval pipeline
(`_single_sql_round` agent.py 395-428 / `_single_sql_round_async`
improved_agent.py 400-427, and `_supervised_sql` agent.py 377-393 /
`_supervised_sql_async` improved_agent.py 373-398).

The LLM drafting oracles are total functions (a stub model returns query
strings); with a non-throwing stub the sync and async loops coincide, and
the `sql_attempts` metric recorded by the async version is included in the
outcome. -/

/-- One round: request to simple question, simple question (plus failing
query feedback) to SQL, execute read-only; a database exception is caught
and replaced by an empty `DataFrame`. -/
def single_sql_round (env : Env) (attempt : Nat) (request previous_query : String) :
    String × Table :=
  let simple_q := env.simpleQuestion attempt request
  let content :=
    if previous_query = "" then simple_q
    else simple_q ++ "\nConsider that the previous query failed: " ++ previous_query
  let sql_query := env.sqlDraft attempt content
  let df : Table :=
    match env.runSql attempt sql_query with
    | .ok t => t
    | .error _ => []
  (sql_query, df)

/-- Result tuple of `_supervised_sql`, with the async version's
`metrics.sql_attempts`. -/
structure SqlOutcome where
  sql_query : String
  data : Table
  data_file : Option String
  ok : Bool
  sql_attempts : Nat
deriving DecidableEq

/-- The retry loop body of `_supervised_sql`: `fuel` is the number of
attempts left, `attempt` the 1-based attempt counter, `base_query` the
failing query fed back to the model. -/
def supervisedSqlGo (env : Env) (request : String) (fsData : Nat) :
    Nat → Nat → String → SqlOutcome × Nat
  | 0, _, _ =>
      ({ sql_query := "", data := [], data_file := none, ok := false,
         sql_attempts := MAX_SQL_RETRIES }, fsData)
  | fuel + 1, attempt, base_query =>
      let r := single_sql_round env attempt request base_query
      if r.2 = [] then
        supervisedSqlGo env request fsData fuel (attempt + 1) r.1
      else
        ({ sql_query := r.1, data := r.2,
           data_file := some (dataFileName fsData), ok := true,
           sql_attempts := attempt }, fsData + 1)

/-- `_supervised_sql(request)`: up to `MAX_SQL_RETRIES` rounds, persisting
the first non-empty result through `save_dataframe` (which hands out the
path for the current data counter and increments it). -/
def supervised_sql (env : Env) (request : String) (fsData : Nat) :
    SqlOutcome × Nat :=
  supervisedSqlGo env request fsData MAX_SQL_RETRIES 1 ""

/-- The result the `k`-th attempt of the loop yields (1-based), following
the feedback chain: attempt 1 drafts from an empty `base_query`, attempt
`k+1` receives attempt `k`'s query as the failing query. -/
def attemptChain (env : Env) (request : String) : Nat → String × Table
  | 0 => ("", [])
  | 1 => single_sql_round env 1 request ""
  | n + 2 =>
      single_sql_round env (n + 2) request (attemptChain env request (n + 1)).1

/-! ## The session orchestrator (`ImprovedAgentChat.execute` and helpers)

State mutations (`self.history.append`, `self.context = ...`,
`setattr(self.artefacts, ...)`, the cache and the file counters) are
threaded explicitly; every fallible step returns the state as mutated so
far alongside an `Except`, so that an exception preserves the partial
mutations exactly as in Python. -/

/-- The mutable per-session state of the agent object. `sqlAttempts` models
`self.artefacts.metrics.sql_attempts`; `fsData`/`fsImage`/`fsCode` are the
`AsyncFileManager` counters. -/
structure AgentState where
  history : List (String × String)
  context : String
  artefacts : Artefacts
  cache : CacheManager
  fsData : Nat
  fsImage : Nat
  fsCode : Nat
  sqlAttempts : Nat
deriving DecidableEq

/-- The state right after `ImprovedAgentChat.__init__`. -/
def initialState : AgentState where
  history := []
  context := "There is no relevant context for this conversation."
  artefacts := {}
  cache := CacheManager.empty 100
  fsData := 0
  fsImage := 0
  fsCode := 0
  sqlAttempts := 0

/-- `cache_key = f"{user_message}:{self.context[:100]}"`. -/
def cacheKey (userMessage context : String) : String :=
  userMessage ++ ":" ++ context.take 100

/-- The fixed apology of the top-level exception handler
(improved_agent.py line 297). -/
def apologyEs : String :=
  "Lo siento, ha ocurrido un error procesando tu solicitud. Por favor, inténtalo de nuevo."

/-- The fixed failure message of the data-refresh branch when the SQL
pipeline is exhausted (source text uses the contraction with an
apostrophe). -/
def dataRetrievalFailMsg : String :=
  "Sorry, I couldn\x27t retrieve the requested data. Please try again."

/-- The fixed image-only branch reply. -/
def imageUpdatedMsg : String := "The image has been updated successfully."

/-- The `raise RuntimeError(f"Image generation failed: {str(e)}")` re-raise
of `_run_python_image_async` (improved_agent.py line 450). -/
def imageWrap (e : String) : String := "Image generation failed: " ++ e

/-- `_run_python_image_async` (improved_agent.py 429-450): upload the data
file, derive plotting instructions, run the code-interpreter session
(`_create_image_async` + `_wait_for_run_sync` + image download), then
extract: save the image bytes, filter the raw code through the model and
save it.  Any exception is re-raised wrapped as `Image generation failed:`.
Passing `data_filename = None` to `open` raises a `TypeError`. -/
def runPythonImage (env : Env) (request sample : String)
    (data_filename : Option String) (st : AgentState) :
    Except String (String × String × String × String) × AgentState :=
  match data_filename with
  | none =>
      (.error (imageWrap "TypeError: expected str, bytes or os.PathLike object, not NoneType"), st)
  | some path =>
      match env.uploadFile path with
      | .error e => (.error (imageWrap e), st)
      | .ok file_id =>
          match env.imageInstr request sample with
          | .error e => (.error (imageWrap e), st)
          | .ok instructions =>
              match env.createImage instructions file_id with
              | .error e => (.error (imageWrap e), st)
              | .ok (img_bytes, raw_code) =>
                  let img_path := imageFileName st.fsImage
                  let st1 := { st with fsImage := st.fsImage + 1 }
                  match env.filterCode raw_code with
                  | .error e => (.error (imageWrap e), st1)
                  | .ok code =>
                      let code_path := codeFileName st1.fsCode
                      let st2 := { st1 with fsCode := st1.fsCode + 1 }
                      (.ok (img_bytes, code, img_path, code_path), st2)

/-- `_record_artefacts_async(new_items, request, answer)`: merge the patch
into the artefact set (latest wins per field), then summarise the
interaction.  Returns `(answer, summary)` as the branch result. -/
def recordArtefacts (env : Env) (p : ArtPatch) (request answer : String)
    (st : AgentState) : Except String (String × String) × AgentState :=
  let st' := { st with artefacts := mergeArtefacts st.artefacts p }
  match env.summarize request answer (patchKeysString p) with
  | .error e => (.error e, st')
  | .ok summary => (.ok (answer, summary), st')

/-- `_answer_only_branch`: reuse `self.artefacts.data` and
`self.artefacts.answer`; `self.artefacts.data` being `None` makes
`df.to_string` inside `_create_final_answer` raise an `AttributeError`. -/
def answerOnlyBranch (env : Env) (request : String) (st : AgentState) :
    Except String (String × String) × AgentState :=
  match st.artefacts.data with
  | none => (.error "AttributeError: NoneType object has no attribute to_string", st)
  | some df =>
      match env.finalAnswer request df st.artefacts.answer with
      | .error e => (.error e, st)
      | .ok final_answer =>
          recordArtefacts env { answer := some final_answer } request final_answer st

/-- `_image_only_branch_async`: reuse `self.artefacts.data` /
`self.artefacts.data_file`; dereferencing `self.artefacts.data.head` with
`data = None` raises an `AttributeError`. -/
def imageOnlyBranch (env : Env) (request : String) (st : AgentState) :
    Except String (String × String) × AgentState :=
  match st.artefacts.data with
  | none => (.error "AttributeError: NoneType object has no attribute head", st)
  | some df =>
      match runPythonImage env request (tableString (df.take HEAD_ROWS))
          st.artefacts.data_file st with
      | (.error e, st') => (.error e, st')
      | (.ok (img_bytes, code, img_path, code_path), st') =>
          recordArtefacts env
            { image_file := some img_path, code_file := some code_path,
              image := some img_bytes, code := some code }
            request imageUpdatedMsg st'

/-- `_data_refresh_branch_async(request, also_image)`: run the supervised
SQL pipeline; on failure short-circuit with the fixed failure message (a
normal return, not an exception); on success produce the final answer and,
when requested, the image (concurrent in the source, joined here in result
order), then record all produced artefact fields. -/
def dataRefreshBranch (env : Env) (request : String) (also_image : Bool)
    (st : AgentState) : Except String (String × String) × AgentState :=
  let (out, fs') := supervised_sql env request st.fsData
  let st1 := { st with fsData := fs', sqlAttempts := out.sql_attempts }
  if !out.ok then
    (.ok (dataRetrievalFailMsg, "Data retrieval failed."), st1)
  else
    let basePatch : ArtPatch :=
      { sql_query := some out.sql_query, data := some out.data,
        data_file := out.data_file }
    match env.finalAnswer request out.data none with
    | .error e => (.error e, st1)
    | .ok final_answer =>
        if also_image then
          match runPythonImage env request (tableString (out.data.take HEAD_ROWS))
              out.data_file st1 with
          | (.error e, st2) => (.error e, st2)
          | (.ok (img_bytes, code, img_path, code_path), st2) =>
              recordArtefacts env
                { basePatch with
                  image_file := some img_path, code_file := some code_path,
                  image := some img_bytes, code := some code }
                request final_answer st2
        else
          recordArtefacts env basePatch request final_answer st1

/-- `_good_flow_async(request)`: append the request to history, plan
actions, dispatch to exactly one branch. -/
def goodFlow (env : Env) (request : String) (st : AgentState) :
    Except String (String × String) × AgentState :=
  let st1 := { st with history := st.history ++ [("user", request)] }
  match env.getActions request with
  | .error e => (.error e, st1)
  | .ok actions =>
      if !actions.is_new_sql_query_needed && !actions.is_new_image_needed then
        answerOnlyBranch env request st1
      else if actions.is_new_image_needed && !actions.is_new_sql_query_needed then
        imageOnlyBranch env request st1
      else
        dataRefreshBranch env request actions.is_new_image_needed st1

/-- The bad-flow reason (agent.py 165-169 / improved_agent.py 258):
`not_on_topic` takes precedence over `context_not_sufficient`. -/
def badFlowReason (c : messageClassification) : String :=
  if !c.is_on_topic then "not_on_topic" else "context_not_sufficient"

/-- The body of the `try:` block of `ImprovedAgentChat.execute`
(improved_agent.py 234-293): cache probe, translation, normalisation,
classification, bad-flow or good-flow dispatch, state update, final
translation and cache store. -/
def executeInner (env : Env) (user_message : String) (st : AgentState) :
    Except String (String × TurnMetrics) × AgentState :=
  let key := cacheKey user_message st.context
  match CacheManager.get st.cache key with
  | .error e => (.error e, st)
  | .ok (some cachedResp, cache') =>
      (.ok (cachedResp, .cached), { st with cache := cache' })
  | .ok (none, _) =>
      match env.translate user_message "spanish" "english" with
      | .error e => (.error e, st)
      | .ok user_en =>
          match env.toRequest st.context user_en with
          | .error e => (.error e, st)
          | .ok request =>
              match env.classify request with
              | .error e => (.error e, st)
              | .ok classification =>
                  if !(classification.is_on_topic && classification.is_context_sufficient) then
                    let reason := badFlowReason classification
                    match env.badFlow reason request with
                    | .error e => (.error e, st)
                    | .ok reply_en =>
                        match env.translate reply_en "english" "spanish" with
                        | .error e => (.error e, st)
                        | .ok response_es => (.ok (response_es, .bad reason), st)
                  else
                    match goodFlow env request st with
                    | (.error e, st2) => (.error e, st2)
                    | (.ok (reply_en, interaction_summary), st2) =>
                        let st3 := { st2 with
                          history := st2.history ++ [("assistant", reply_en)] }
                        match env.updateContext st3.context interaction_summary with
                        | .error e => (.error e, st3)
                        | .ok newContext =>
                            let st4 := { st3 with context := newContext }
                            match env.translate reply_en "english" "spanish" with
                            | .error e => (.error e, st4)
                            | .ok response_es =>
                                match CacheManager.set st4.cache key response_es with
                                | .error e => (.error e, st4)
                                | .ok cache' =>
                                    (.ok (response_es, .good st4.sqlAttempts),
                                     { st4 with cache := cache' })

/-- `ImprovedAgentChat.execute(user_message)`: the `try/except` wrapper —
any exception from the body is converted into the fixed localized apology
and an error-tagged metrics object. -/
def execute (env : Env) (user_message : String) (st : AgentState) :
    String × TurnMetrics × AgentState :=
  match executeInner env user_message st with
  | (.ok (response, metrics), st') => (response, metrics, st')
  | (.error e, st') => (apologyEs, .error e, st')

/-! ## Visualization run wait (`_wait_for_run` agent.py 489-500 /
`_wait_for_run_sync` improved_agent.py 628-635) -/

/-- Status of an assistant run as read from the run object. -/
inductive RunStatus where
  | completed : RunStatus
  | failed : RunStatus
  | cancelled : RunStatus
  | other (s : String) : RunStatus
deriving DecidableEq

/-- `_wait_for_run_sync(run, thread_id)`: loop reading `run.status`;
`completed` returns the thread's messages, `failed`/`cancelled` raise
`RuntimeError(f"Image generation failed: {status}")`, any other status
sleeps and polls again.  The run object is never re-fetched inside the
loop, so the status it reads is the same each iteration; `fuel` bounds the
number of iterations observed and `none` means the loop has not returned
within that bound. -/
def waitForRunSync (msgs : List String) (status : RunStatus) :
    Nat → Option (Except String (List String))
  | 0 => none
  | fuel + 1 =>
      match status with
      | .completed => some (.ok msgs)
      | .failed => some (.error "Image generation failed: failed")
      | .cancelled => some (.error "Image generation failed: cancelled")
      | .other _ => waitForRunSync msgs status fuel

/-! ## Association-list and cache lemmas -/

theorem lookupA_insertA_self (l : List (String × String)) (k v : String) :
    lookupA (insertA l k v) k = some v := by
  induction l with
  | nil => simp [insertA, lookupA]
  | cons p t ih =>
      obtain ⟨k', v'⟩ := p
      by_cases h : k' = k
      · simp [insertA, h, lookupA]
      · simp [insertA, h, lookupA, ih]

theorem lookupA_eq_none (l : List (String × String)) (k : String)
    (h : k ∉ l.map Prod.fst) : lookupA l k = none := by
  induction l with
  | nil => rfl
  | cons p t ih =>
      obtain ⟨k', v'⟩ := p
      simp only [List.map_cons, List.mem_cons] at h
      push_neg at h
      simp [lookupA, Ne.symm h.1, ih h.2]

theorem insertA_of_not_mem (l : List (String × String)) (k v : String)
    (h : k ∉ l.map Prod.fst) : insertA l k v = l ++ [(k, v)] := by
  induction l with
  | nil => rfl
  | cons p t ih =>
      obtain ⟨k', v'⟩ := p
      simp only [List.map_cons, List.mem_cons] at h
      push_neg at h
      simp [insertA, Ne.symm h.1, ih h.2]

theorem eraseA_cons_self (p : String × String) (t : List (String × String)) :
    eraseA (p :: t) p.1 = t := by
  obtain ⟨k, v⟩ := p
  simp [eraseA]

theorem setAll_append (xs ys : List (String × String)) :
    ∀ c : CacheManager,
    CacheManager.setAll c (xs ++ ys) =
      match CacheManager.setAll c xs with
      | .error e => .error e
      | .ok c' => CacheManager.setAll c' ys := by
  induction xs with
  | nil => intro c; simp [CacheManager.setAll]
  | cons p t ih =>
      intro c
      obtain ⟨k, v⟩ := p
      simp only [List.cons_append, CacheManager.setAll]
      cases c.set k v with
      | error e => simp
      | ok c' => simp [ih c']

/-- Filling a cache with fresh keys below capacity appends the entries in
order and records their keys in `access_order` in insertion order. -/
theorem setAll_fill (N : Nat) (ps : List (String × String)) :
    ∀ es : List (String × String),
    ((es ++ ps).map Prod.fst).Nodup →
    es.length + ps.length ≤ N →
    CacheManager.setAll ⟨es, N, es.map Prod.fst⟩ ps
      = .ok ⟨es ++ ps, N, (es ++ ps).map Prod.fst⟩ := by
  induction ps with
  | nil => intro es _ _; simp [CacheManager.setAll]
  | cons p t ih =>
      intro es hnodup hlen
      obtain ⟨k, v⟩ := p
      simp only [List.length_cons] at hlen
      have hk : k ∉ es.map Prod.fst := by
        intro hmem
        have := hnodup
        rw [List.map_append, List.nodup_append] at this
        exact absurd (by simp) (this.2.2 hmem)
      have hlook : lookupA es k = none := lookupA_eq_none es k hk
      have hcap : ¬ N ≤ es.length := by omega
      have hset : CacheManager.set ⟨es, N, es.map Prod.fst⟩ k v
          = .ok ⟨es ++ [(k, v)], N, (es ++ [(k, v)]).map Prod.fst⟩ := by
        simp [CacheManager.set, hlook, hcap, insertA_of_not_mem es k v hk]
      simp only [CacheManager.setAll, hset]
      have hassoc : es ++ (k, v) :: t = (es ++ [(k, v)]) ++ t := by simp
      rw [hassoc] at hnodup ⊢
      exact ih (es ++ [(k, v)]) hnodup (by simp; omega)

/-! ## Stub environment used by the concrete witnesses -/

/-- A benign stub of all external services: every call succeeds with a
fixed value, translation is the identity. -/
def stubEnv : Env where
  translate := fun t _ _ => .ok t
  toRequest := fun _ u => .ok u
  classify := fun _ => .ok ⟨true, true⟩
  getActions := fun _ => .ok ⟨true, false⟩
  badFlow := fun _ r => .ok r
  finalAnswer := fun _ _ _ => .ok "final answer"
  summarize := fun _ _ _ => .ok "summary"
  updateContext := fun c _ => .ok c
  simpleQuestion := fun _ _ => "simple question"
  sqlDraft := fun _ _ => "SELECT 1"
  runSql := fun _ _ => .ok [["1"]]
  uploadFile := fun _ => .ok "file-id"
  imageInstr := fun _ _ => .ok "instructions"
  createImage := fun _ _ => .ok ("imgbytes", "raw code")
  filterCode := fun t => .ok t

/-! ## Claim theorems -/

/-- C6: the bad-flow reason is computed with `not_on_topic` taking
precedence: `{on_topic=false, context_sufficient=true}` yields
`not_on_topic`, `{on_topic=true, context_sufficient=false}` yields
`context_not_sufficient`, and `{on_topic=false, context_sufficient=false}`
yields `not_on_topic`. -/
theorem c6_bad_flow_reason_precedence :
    badFlowReason ⟨false, true⟩ = "not_on_topic" ∧
    badFlowReason ⟨true, false⟩ = "context_not_sufficient" ∧
    badFlowReason ⟨false, false⟩ = "not_on_topic" :=
  ⟨rfl, rfl, rfl⟩

/-- C7: any exception raised by executing the drafted SQL statement against
the database is caught inside the round and yields an empty result table;
the round itself is total (it never propagates the database error out of
the SQL pipeline). -/
theorem c7_sql_execution_error_yields_empty_table
    (env : Env) (attempt : Nat) (request previous_query e : String)
    (h : env.runSql attempt (single_sql_round env attempt request previous_query).1
          = .error e) :
    (single_sql_round env attempt request previous_query).2 = [] := by
  simp only [single_sql_round] at h ⊢
  rw [h]

/-- C7 witness: a database stub that always raises makes the round return
an empty table. -/
theorem c7_witness :
    (single_sql_round
      { stubEnv with runSql := fun _ _ => .error "no such table: equipment" }
      1 "req" "").2 = [] :=
  c7_sql_execution_error_yields_empty_table
    { stubEnv with runSql := fun _ _ => .error "no such table: equipment" }
    1 "req" "" "no such table: equipment" rfl

/-- C9: the run wait loop acts on the terminal status of the run: status
`completed` returns the thread messages (from which the caller extracts the
image and the code), status `failed` or `cancelled` raises the fatal
image-generation error with no retry at this layer, and a non-terminal
status never returns (the loop keeps polling). -/
theorem c9_wait_for_run_terminal_status (msgs : List String) (fuel : Nat) (s : String) :
    waitForRunSync msgs .completed (fuel + 1) = some (.ok msgs) ∧
    waitForRunSync msgs .failed (fuel + 1)
      = some (.error "Image generation failed: failed") ∧
    waitForRunSync msgs .cancelled (fuel + 1)
      = some (.error "Image generation failed: cancelled") ∧
    waitForRunSync msgs (.other s) (fuel + 1) = waitForRunSync msgs (.other s) fuel :=
  ⟨rfl, rfl, rfl, rfl⟩

/-- C2: if any exception is raised anywhere inside the body of a turn
(steps 2-7: translation, normalization, classification, branch dispatch,
context update, final translation), `execute` returns the fixed localized
apology together with an error-tagged metrics object; by its type,
`execute` is total and never propagates an exception to the caller. -/
theorem c2_execute_catches_all_exceptions
    (env : Env) (user_message : String) (st : AgentState) (e : String)
    (st' : AgentState)
    (h : executeInner env user_message st = (.error e, st')) :
    execute env user_message st = (apologyEs, .error e, st') := by
  simp only [execute, h]

/-- C2 witness: a translation service that raises makes `execute` return
the apology with error-tagged metrics. -/
theorem c2_witness :
    execute { stubEnv with translate := fun _ _ _ => .error "boom" }
        "hola" initialState
      = (apologyEs, .error "boom", initialState) :=
  c2_execute_catches_all_exceptions
    { stubEnv with translate := fun _ _ _ => .error "boom" }
    "hola" initialState "boom" initialState rfl

/-- C4: a turn classified as bad (off-topic or context-insufficient)
returns the translated apology/clarification reply with `flow=bad` and
leaves the whole session state — in particular the history and the rolling
context summary — exactly as it was before the turn. -/
theorem c4_bad_flow_preserves_history_and_context
    (env : Env) (msg : String) (st : AgentState)
    (u r reply resp : String) (c : messageClassification)
    (h1 : lookupA st.cache.cache (cacheKey msg st.context) = none)
    (h2 : env.translate msg "spanish" "english" = .ok u)
    (h3 : env.toRequest st.context u = .ok r)
    (h4 : env.classify r = .ok c)
    (h5 : c.is_on_topic = false ∨ c.is_context_sufficient = false)
    (h6 : env.badFlow (badFlowReason c) r = .ok reply)
    (h7 : env.translate reply "english" "spanish" = .ok resp) :
    execute env msg st = (resp, .bad (badFlowReason c), st) := by
  simp only [execute, executeInner, CacheManager.get, h1, h2, h3, h4, h6, h7]
  rcases h5 with h5 | h5 <;> simp [h5]

/-- C4 witness: an off-topic classification at the initial state returns
the bad-flow reply and the state is untouched. -/
theorem c4_witness :
    execute { stubEnv with classify := fun _ => .ok ⟨false, true⟩ }
        "hola" initialState
      = ("hola", .bad (badFlowReason ⟨false, true⟩), initialState) :=
  c4_bad_flow_preserves_history_and_context
    { stubEnv with classify := fun _ => .ok ⟨false, true⟩ }
    "hola" initialState "hola" "hola" "hola" "hola" ⟨false, true⟩
    rfl rfl rfl rfl (Or.inl rfl) rfl rfl

/-- C10: when the action plan selects the image-only branch while no table
artifact exists yet (`artefacts.data` is still `None`), the branch raises
an `AttributeError` dereferencing the missing data; the top-level guard of
`execute` absorbs it and returns the fixed apology with error-tagged
metrics instead of an image.  The user request appended to the history
before the failure stays appended, as in the source. -/
theorem c10_image_only_without_data_is_caught
    (env : Env) (msg : String) (st : AgentState) (u r : String)
    (h1 : lookupA st.cache.cache (cacheKey msg st.context) = none)
    (h2 : env.translate msg "spanish" "english" = .ok u)
    (h3 : env.toRequest st.context u = .ok r)
    (h4 : env.classify r = .ok ⟨true, true⟩)
    (h5 : env.getActions r = .ok ⟨false, true⟩)
    (h6 : st.artefacts.data = none) :
    execute env msg st
      = (apologyEs, .error "AttributeError: NoneType object has no attribute head",
         { st with history := st.history ++ [("user", r)] }) := by
  simp only [execute, executeInner, goodFlow, imageOnlyBranch, CacheManager.get,
    h1, h2, h3, h4, h5]
  simp [h6]

/-- C10 witness: on the first turn (initial state, empty artefacts) an
image-only action plan yields the apology and error-tagged metrics. -/
theorem c10_witness :
    execute { stubEnv with getActions := fun _ => .ok ⟨false, true⟩ }
        "hola" initialState
      = (apologyEs, .error "AttributeError: NoneType object has no attribute head",
         { initialState with history := [("user", "hola")] }) :=
  c10_image_only_without_data_is_caught
    { stubEnv with getActions := fun _ => .ok ⟨false, true⟩ }
    "hola" initialState "hola" "hola" rfl rfl rfl rfl rfl rfl

/-- C3: strict LRU behaviour of the response cache.  (a) Starting from the
empty cache of capacity `N`, inserting `N + 1` distinct keys evicts exactly
the least-recently-accessed (first-inserted) entry and no other: the
resulting dict holds precisely the last `N` pairs and the evicted key no
longer resolves.  (b) `get` on a present key returns its value and promotes
the key to most-recently-used.  (c) `set` on an existing key updates the
value and promotes the key.  (d) `set` on a new key at capacity evicts the
least-recently-used entry (the head of `access_order`) before inserting. -/
theorem c3_lru_cache_behaviour :
    (∀ (N : Nat) (p0 : String × String) (ps : List (String × String)) (k v : String),
       N = ps.length + 1 →
       (((p0 :: ps) ++ [(k, v)]).map Prod.fst).Nodup →
       CacheManager.setAll (CacheManager.empty N) ((p0 :: ps) ++ [(k, v)])
         = .ok ⟨ps ++ [(k, v)], N, (ps ++ [(k, v)]).map Prod.fst⟩
       ∧ lookupA (ps ++ [(k, v)]) p0.1 = none)
    ∧
    (∀ (c : CacheManager) (k v : String),
       lookupA c.cache k = some v → k ∈ c.access_order →
       CacheManager.get c k
         = .ok (some v, { c with access_order := c.access_order.erase k ++ [k] }))
    ∧
    (∀ (c : CacheManager) (k v w : String),
       lookupA c.cache k = some w → k ∈ c.access_order →
       CacheManager.set c k v
         = .ok { c with cache := insertA c.cache k v,
                        access_order := c.access_order.erase k ++ [k] }
       ∧ lookupA (insertA c.cache k v) k = some v)
    ∧
    (∀ (c : CacheManager) (k v oldest : String) (rest : List String),
       lookupA c.cache k = none → c.max_size ≤ c.cache.length →
       c.access_order = oldest :: rest →
       CacheManager.set c k v
         = .ok { c with cache := insertA (eraseA c.cache oldest) k v,
                        access_order := rest ++ [k] }
       ∧ lookupA (insertA (eraseA c.cache oldest) k v) k = some v) := by
  refine ⟨?_, ?_, ?_, ?_⟩
  · intro N p0 ps k v hN hnodup
    have hmap : ((p0 :: ps) ++ [(k, v)]).map Prod.fst
        = p0.1 :: (ps.map Prod.fst ++ [k]) := by simp
    rw [hmap] at hnodup
    rcases List.nodup_cons.mp hnodup with ⟨hp0, htail⟩
    have hkps : k ∉ ps.map Prod.fst := by
      rw [List.nodup_append] at htail
      intro hm
      exact htail.2.2 hm (by simp)
    have hp0ps : p0.1 ∉ ps.map Prod.fst := by
      intro hm; exact hp0 (by simp [hm])
    have hp0k : p0.1 ≠ k := by
      intro hm; exact hp0 (by simp [hm])
    have hfull : CacheManager.setAll (CacheManager.empty N) (p0 :: ps)
        = .ok ⟨p0 :: ps, N, (p0 :: ps).map Prod.fst⟩ := by
      have := setAll_fill N (p0 :: ps) []
        (by
          simp only [List.nil_append]
          rw [List.map_cons, List.nodup_cons]
          rw [List.nodup_append] at htail
          exact ⟨hp0ps, htail.1⟩)
        (by simp [hN])
      simpa [CacheManager.empty] using this
    have hknew : lookupA (p0 :: ps) k = none := by
      apply lookupA_eq_none
      rw [List.map_cons]
      simp [Ne.symm hp0k, hkps]
    have hset : CacheManager.set ⟨p0 :: ps, N, (p0 :: ps).map Prod.fst⟩ k v
        = .ok ⟨ps ++ [(k, v)], N, (ps ++ [(k, v)]).map Prod.fst⟩ := by
      have hcap : N ≤ (p0 :: ps).length := by simp [hN]
      have hao : (p0 :: ps).map Prod.fst = p0.1 :: ps.map Prod.fst :=
        List.map_cons ..
      simp only [CacheManager.set, hknew, Option.isSome_none, Bool.false_eq_true,
        if_false, hcap, if_true, hao]
      rw [eraseA_cons_self, insertA_of_not_mem ps k v hkps]
      simp
    constructor
    · rw [setAll_append, hfull]
      simp only [CacheManager.setAll, hset]
    · apply lookupA_eq_none
      rw [List.map_append]
      simp [hp0ps, hp0k]
  · intro c k v h1 h2
    simp [CacheManager.get, h1, pyRemove, h2]
  · intro c k v w h1 h2
    refine ⟨?_, lookupA_insertA_self c.cache k v⟩
    simp [CacheManager.set, h1, pyRemove, h2]
  · intro c k v oldest rest h1 h2 h3
    refine ⟨?_, lookupA_insertA_self (eraseA c.cache oldest) k v⟩
    simp [CacheManager.set, h1, h2, h3]

/-- C3 witness: the four LRU properties evaluated on a concrete cache of
capacity 2 holding keys `a` (least recently used) and `b`. -/
theorem c3_witness :
    (CacheManager.setAll (CacheManager.empty 2) [("a", "1"), ("b", "2"), ("c", "3")]
       = .ok ⟨[("b", "2"), ("c", "3")], 2, ["b", "c"]⟩
     ∧ lookupA [("b", "2"), ("c", "3")] "a" = none)
    ∧ CacheManager.get ⟨[("a", "1"), ("b", "2")], 2, ["a", "b"]⟩ "a"
       = .ok (some "1", ⟨[("a", "1"), ("b", "2")], 2, ["b", "a"]⟩)
    ∧ (CacheManager.set ⟨[("a", "1"), ("b", "2")], 2, ["a", "b"]⟩ "a" "9"
       = .ok ⟨[("a", "9"), ("b", "2")], 2, ["b", "a"]⟩
       ∧ lookupA [("a", "9"), ("b", "2")] "a" = some "9")
    ∧ (CacheManager.set ⟨[("a", "1"), ("b", "2")], 2, ["a", "b"]⟩ "c" "3"
       = .ok ⟨[("b", "2"), ("c", "3")], 2, ["b", "c"]⟩
       ∧ lookupA [("b", "2"), ("c", "3")] "c" = some "3") :=
  ⟨c3_lru_cache_behaviour.1 2 ("a", "1") [("b", "2")] "c" "3" rfl (by decide),
   c3_lru_cache_behaviour.2.1 ⟨[("a", "1"), ("b", "2")], 2, ["a", "b"]⟩ "a" "1"
     rfl (by decide),
   c3_lru_cache_behaviour.2.2.1 ⟨[("a", "1"), ("b", "2")], 2, ["a", "b"]⟩ "a" "9" "1"
     rfl (by decide),
   c3_lru_cache_behaviour.2.2.2 ⟨[("a", "1"), ("b", "2")], 2, ["a", "b"]⟩ "c" "3" "a"
     ["b"] rfl (by decide) rfl⟩

/-- Whether the image pipeline succeeds or fails, the state it hands back
carries the artefact set it was given (it only bumps file counters). -/
theorem runPythonImage_ok_inv (env : Env) (request sample : String)
    (dataf : Option String) (st : AgentState) (img code imgp codep : String)
    (st' : AgentState)
    (h : runPythonImage env request sample dataf st = (.ok (img, code, imgp, codep), st')) :
    imgp = imageFileName st.fsImage ∧ codep = codeFileName st.fsCode ∧
    st' = { st with fsImage := st.fsImage + 1, fsCode := st.fsCode + 1 } := by
  simp only [runPythonImage] at h
  cases dataf with
  | none => simp at h
  | some path =>
      cases hup : env.uploadFile path with
      | error e => simp only [hup] at h; simp at h
      | ok fid =>
          simp only [hup] at h
          cases hin : env.imageInstr request sample with
          | error e => simp only [hin] at h; simp at h
          | ok instructions =>
              simp only [hin] at h
              cases hci : env.createImage instructions fid with
              | error e => simp only [hci] at h; simp at h
              | ok pr =>
                  obtain ⟨img_bytes, raw_code⟩ := pr
                  simp only [hci] at h
                  cases hfc : env.filterCode raw_code with
                  | error e => simp only [hfc] at h; simp at h
                  | ok code' =>
                      simp only [hfc, Prod.mk.injEq, Except.ok.injEq] at h
                      obtain ⟨⟨hb, hc, hi, hp⟩, hs⟩ := h
                      exact ⟨hi.symm, hp.symm, hs.symm⟩

/-- `recordArtefacts` always merges the patch into the artefact set,
whether or not the summarisation call succeeds. -/
theorem recordArtefacts_state (env : Env) (p : ArtPatch) (request answer : String)
    (st : AgentState) :
    (recordArtefacts env p request answer st).2
      = { st with artefacts := mergeArtefacts st.artefacts p } := by
  unfold recordArtefacts
  split <;> rfl

/-- C5: the artifact set obeys latest-wins per field — the merge overwrites
exactly the fields present in the patch and keeps every other field — and
in particular a successful image-only turn leaves `sql_query`, `data` and
`data_file` unchanged while updating `image_file` and `code_file` to the
freshly saved files. -/
theorem c5_latest_wins_artefacts :
    (∀ (a : Artefacts) (p : ArtPatch),
      (p.sql_query = none → (mergeArtefacts a p).sql_query = a.sql_query) ∧
      (p.data = none → (mergeArtefacts a p).data = a.data) ∧
      (p.data_file = none → (mergeArtefacts a p).data_file = a.data_file) ∧
      (p.image_file = none → (mergeArtefacts a p).image_file = a.image_file) ∧
      (p.code_file = none → (mergeArtefacts a p).code_file = a.code_file) ∧
      (p.answer = none → (mergeArtefacts a p).answer = a.answer) ∧
      (∀ v, p.sql_query = some v → (mergeArtefacts a p).sql_query = some v) ∧
      (∀ v, p.data = some v → (mergeArtefacts a p).data = some v) ∧
      (∀ v, p.data_file = some v → (mergeArtefacts a p).data_file = some v) ∧
      (∀ v, p.image_file = some v → (mergeArtefacts a p).image_file = some v) ∧
      (∀ v, p.code_file = some v → (mergeArtefacts a p).code_file = some v) ∧
      (∀ v, p.answer = some v → (mergeArtefacts a p).answer = some v))
    ∧
    (∀ (env : Env) (request : String) (st : AgentState) (df : Table)
       (res : String × String) (st' : AgentState),
      st.artefacts.data = some df →
      imageOnlyBranch env request st = (.ok res, st') →
      st'.artefacts.sql_query = st.artefacts.sql_query ∧
      st'.artefacts.data = st.artefacts.data ∧
      st'.artefacts.data_file = st.artefacts.data_file ∧
      st'.artefacts.image_file = some (imageFileName st.fsImage) ∧
      st'.artefacts.code_file = some (codeFileName st.fsCode)) := by
  constructor
  · intro a p
    refine ⟨?_, ?_, ?_, ?_, ?_, ?_, ?_, ?_, ?_, ?_, ?_, ?_⟩ <;>
      first
        | (intro h; simp [mergeArtefacts, h])
        | (intro v h; simp [mergeArtefacts, h])
  · intro env request st df res st' hdata h
    simp only [imageOnlyBranch, hdata] at h
    split at h
    · simp at h
    next img code imgp codep strun heq =>
      obtain ⟨h1, h2, h3⟩ := runPythonImage_ok_inv env request
        (tableString (List.take HEAD_ROWS df)) st.artefacts.data_file st
        img code imgp codep strun heq
      have hsnd := congrArg Prod.snd h
      simp only [recordArtefacts_state] at hsnd
      subst h1 h2 h3 hsnd
      simp [mergeArtefacts]

/-- A session state that already holds a table artifact, as after one
data-refresh turn. -/
def c5State : AgentState :=
  { initialState with
    artefacts := { data := some [["1"]], data_file := some "data_0.csv" } }

/-- C5 witness: the merge on a concrete artefact set keeps an absent field
and overwrites a present one, and a concrete successful image-only turn
keeps `sql_query`/`data`/`data_file` while updating the image and code
files. -/
theorem c5_witness :
    ((mergeArtefacts { sql_query := some "q" } { image_file := some "image_0.png" }).sql_query
        = ({ sql_query := some "q" } : Artefacts).sql_query
     ∧ (mergeArtefacts { sql_query := some "q" } { image_file := some "image_0.png" }).image_file
        = some "image_0.png")
    ∧ ((imageOnlyBranch stubEnv "req" c5State).2.artefacts.sql_query
        = c5State.artefacts.sql_query
     ∧ (imageOnlyBranch stubEnv "req" c5State).2.artefacts.data
        = c5State.artefacts.data
     ∧ (imageOnlyBranch stubEnv "req" c5State).2.artefacts.data_file
        = c5State.artefacts.data_file
     ∧ (imageOnlyBranch stubEnv "req" c5State).2.artefacts.image_file
        = some (imageFileName c5State.fsImage)
     ∧ (imageOnlyBranch stubEnv "req" c5State).2.artefacts.code_file
        = some (codeFileName c5State.fsCode)) :=
  ⟨⟨(c5_latest_wins_artefacts.1 { sql_query := some "q" }
       { image_file := some "image_0.png" }).1 rfl,
    (c5_latest_wins_artefacts.1 { sql_query := some "q" }
       { image_file := some "image_0.png" }).2.2.2.2.2.2.2.2.2.1
      "image_0.png" rfl⟩,
   c5_latest_wins_artefacts.2 stubEnv "req" c5State [["1"]]
     ("The image has been updated successfully.", "summary")
     (imageOnlyBranch stubEnv "req" c5State).2 rfl rfl⟩

/-- One unrolling step of the supervised-SQL retry loop. -/
theorem supervisedSqlGo_succ (env : Env) (request : String)
    (fsData fuel attempt : Nat) (bq : String) :
    supervisedSqlGo env request fsData (fuel + 1) attempt bq
      = (if (single_sql_round env attempt request bq).2 = []
         then supervisedSqlGo env request fsData fuel (attempt + 1)
                (single_sql_round env attempt request bq).1
         else ({ sql_query := (single_sql_round env attempt request bq).1,
                 data := (single_sql_round env attempt request bq).2,
                 data_file := some (dataFileName fsData), ok := true,
                 sql_attempts := attempt }, fsData + 1)) := rfl

/-- C1: the SQL retrieval pipeline succeeds exactly when some attempt `k`
with `1 ≤ k ≤ MAX_SQL_RETRIES` yields a non-empty result set along the
feedback chain.  For the first such `k` it returns that attempt's SQL
string, its non-empty table, a fresh data-file handle (the current data
counter's path, with the counter advanced) and `success=true` with the
recorded attempt count equal to `k`; if every attempt yields an empty
result it returns an empty SQL string, an empty table, no handle, and
`success=false`. -/
theorem c1_supervised_sql_success_iff (env : Env) (request : String) (fs : Nat) :
    (∀ k, 1 ≤ k → k ≤ MAX_SQL_RETRIES → (attemptChain env request k).2 ≠ [] →
      (∀ j, 1 ≤ j → j < k → (attemptChain env request j).2 = []) →
      supervised_sql env request fs
        = ({ sql_query := (attemptChain env request k).1,
             data := (attemptChain env request k).2,
             data_file := some (dataFileName fs), ok := true,
             sql_attempts := k }, fs + 1))
    ∧
    ((∀ k, 1 ≤ k → k ≤ MAX_SQL_RETRIES → (attemptChain env request k).2 = []) →
      supervised_sql env request fs
        = ({ sql_query := "", data := [], data_file := none, ok := false,
             sql_attempts := MAX_SQL_RETRIES }, fs)) := by
  have e1 : single_sql_round env 1 request "" = attemptChain env request 1 := rfl
  have e2 : single_sql_round env 2 request (attemptChain env request 1).1
      = attemptChain env request 2 := rfl
  have e3 : single_sql_round env 3 request (attemptChain env request 2).1
      = attemptChain env request 3 := rfl
  constructor
  · intro k hk1 hk3 hne hmin
    have hk3' : k ≤ 3 := hk3
    unfold supervised_sql MAX_SQL_RETRIES
    interval_cases k
    · rw [supervisedSqlGo_succ env request fs 2 1 "", e1, if_neg hne]
    · have hz1 : (attemptChain env request 1).2 = [] := hmin 1 le_rfl (by norm_num)
      rw [supervisedSqlGo_succ env request fs 2 1 "", e1, if_pos hz1,
        supervisedSqlGo_succ env request fs 1 2 (attemptChain env request 1).1,
        e2, if_neg hne]
    · have hz1 : (attemptChain env request 1).2 = [] := hmin 1 le_rfl (by norm_num)
      have hz2 : (attemptChain env request 2).2 = [] := hmin 2 (by norm_num) (by norm_num)
      rw [supervisedSqlGo_succ env request fs 2 1 "", e1, if_pos hz1,
        supervisedSqlGo_succ env request fs 1 2 (attemptChain env request 1).1,
        e2, if_pos hz2,
        supervisedSqlGo_succ env request fs 0 3 (attemptChain env request 2).1,
        e3, if_neg hne]
  · intro hall
    have hz1 : (attemptChain env request 1).2 = [] := hall 1 le_rfl (by decide)
    have hz2 : (attemptChain env request 2).2 = [] := hall 2 (by norm_num) (by decide)
    have hz3 : (attemptChain env request 3).2 = [] := hall 3 (by norm_num) (by decide)
    unfold supervised_sql MAX_SQL_RETRIES
    rw [supervisedSqlGo_succ env request fs 2 1 "", e1, if_pos hz1,
      supervisedSqlGo_succ env request fs 1 2 (attemptChain env request 1).1,
      e2, if_pos hz2,
      supervisedSqlGo_succ env request fs 0 3 (attemptChain env request 2).1,
      e3, if_pos hz3]
    rfl

/-- The database stub of the spec's test scenario: empty result sets on
attempts 1 and 2, one row on attempt 3. -/
def envThirdTry : Env :=
  { stubEnv with runSql := fun attempt _ => if attempt = 3 then .ok [["42"]] else .ok [] }

/-- A database stub yielding an empty result set on every attempt. -/
def envAllEmpty : Env :=
  { stubEnv with runSql := fun _ _ => .ok [] }

/-- C1 witness: with empty results on attempts 1 and 2 and a row on attempt
3 the pipeline returns `success=true` and `attempts=3` with a fresh data
handle; with all three attempts empty it returns empty SQL, empty table, no
handle and `success=false`. -/
theorem c1_witness :
    supervised_sql envThirdTry "req" 0
      = ({ sql_query := (attemptChain envThirdTry "req" 3).1,
           data := (attemptChain envThirdTry "req" 3).2,
           data_file := some (dataFileName 0), ok := true,
           sql_attempts := 3 }, 1)
    ∧ supervised_sql envAllEmpty "req" 0
      = ({ sql_query := "", data := [], data_file := none, ok := false,
           sql_attempts := MAX_SQL_RETRIES }, 0) :=
  ⟨(c1_supervised_sql_success_iff envThirdTry "req" 0).1 3
      (by norm_num) (by decide) (by decide)
      (by intro j hj1 hj3; interval_cases j <;> rfl),
   (c1_supervised_sql_success_iff envAllEmpty "req" 0).2
      (by intro k hk1 hk3; have hk3' : k ≤ 3 := hk3; interval_cases k <;> rfl)⟩

/-- After a successful `set`, the key resolves to the stored value and is
recorded in `access_order`. -/
theorem set_ok_lookup (c : CacheManager) (k v : String) (c' : CacheManager)
    (h : CacheManager.set c k v = .ok c') :
    lookupA c'.cache k = some v ∧ k ∈ c'.access_order := by
  unfold CacheManager.set at h
  split at h
  · split at h
    · exact absurd h (by simp)
    · injection h with h
      subst h
      exact ⟨lookupA_insertA_self c.cache k v, by simp⟩
  · split at h
    · split at h
      · exact absurd h (by simp)
      · injection h with h
        subst h
        exact ⟨lookupA_insertA_self _ k v, by simp⟩
    · injection h with h
      subst h
      exact ⟨lookupA_insertA_self c.cache k v, by simp⟩

/-- A turn that completes with `flow=good` metrics went through the final
cache store: its resulting cache is the successful `set` of the reply under
the key computed from the message and the context at the start of the
turn. -/
theorem executeInner_good_inv (env : Env) (msg : String) (st : AgentState)
    (resp : String) (n : Nat) (st1 : AgentState)
    (h : executeInner env msg st = (.ok (resp, .good n), st1)) :
    ∃ cpre, CacheManager.set cpre (cacheKey msg st.context) resp = .ok st1.cache := by
  simp only [executeInner] at h
  split at h
  · simp at h
  · simp at h
  · split at h
    · simp at h
    · split at h
      · simp at h
      · split at h
        · simp at h
        · split at h
          · split at h
            · simp at h
            · split at h
              · simp at h
              · simp at h
          · split at h
            · simp at h
            · split at h
              · simp at h
              · split at h
                · simp at h
                · split at h
                  · simp at h
                  · next cache' hset =>
                      simp only [Prod.mk.injEq, Except.ok.injEq,
                        TurnMetrics.good.injEq] at h
                      obtain ⟨⟨hresp, _⟩, hst⟩ := h
                      subst hresp
                      subst hst
                      exact ⟨_, hset⟩

/-- C8: within one session, a second `execute` call with the same message
whose cache key equals the first call's (same message, same first 100
characters of context) hits the cache: if the first call completed with
`flow=good` (storing its reply), the second call returns that reply
immediately with `cached=true` metrics, skipping all further steps. -/
theorem c8_second_identical_call_hits_cache
    (env1 env2 : Env) (msg resp : String) (n : Nat) (st st1 : AgentState)
    (h1 : execute env1 msg st = (resp, .good n, st1))
    (h2 : st1.context.take 100 = st.context.take 100) :
    ∃ st2, execute env2 msg st1 = (resp, .cached, st2) := by
  have hinner : executeInner env1 msg st = (.ok (resp, .good n), st1) := by
    unfold execute at h1
    split at h1
    · next response metrics st' heq =>
        simp only [Prod.mk.injEq] at h1
        obtain ⟨ha, hb, hc⟩ := h1
        subst ha; subst hb; subst hc
        exact heq
    · simp at h1
  obtain ⟨cpre, hset⟩ := executeInner_good_inv env1 msg st resp n st1 hinner
  obtain ⟨hlook, hmem⟩ := set_ok_lookup cpre (cacheKey msg st.context) resp
    st1.cache hset
  have hkey : cacheKey msg st1.context = cacheKey msg st.context := by
    unfold cacheKey; rw [h2]
  have hget : CacheManager.get st1.cache (cacheKey msg st1.context)
      = .ok (some resp,
             { st1.cache with
               access_order :=
                 st1.cache.access_order.erase (cacheKey msg st.context)
                   ++ [cacheKey msg st.context] }) := by
    rw [hkey]
    unfold CacheManager.get pyRemove
    rw [hlook]
    simp [hmem]
  refine ⟨{ st1 with cache :=
      { st1.cache with
        access_order :=
          st1.cache.access_order.erase (cacheKey msg st.context)
            ++ [cacheKey msg st.context] } }, ?_⟩
  unfold execute
  simp only [executeInner, hget]

/-- C8 witness: a first good-flow call at the initial state (data-refresh
branch succeeding on attempt 1, context left with the same 100-character
prefix by the stub) makes an identical second call return the stored reply
from the cache. -/
theorem c8_witness :
    ∃ st2, execute stubEnv "hola" ((execute stubEnv "hola" initialState).2.2)
      = ("final answer", .cached, st2) :=
  c8_second_identical_call_hits_cache stubEnv stubEnv "hola" "final answer" 1
    initialState ((execute stubEnv "hola" initialState).2.2) (by rfl) (by rfl)

end MantentionAgent
